import Mathlib

/-!
Verification development for the project-card-mover webhook service
(`src/main.rs`).  The service receives a project-board webhook, queries the
item's field values over GraphQL, and closes the linked issue when the
"Status" field equals "Done".

The embedding below translates the Rust source directly:
  * `query_template` / `issue_number_template` are the raw string literals of
    `prepare_graphql_query` / `prepare_issue_number_query` (braces written
    with `\x7b`/`\x7d` escapes, quotes escaped).
  * `replaceAll` models Rust `str::replace` (left-to-right, non-overlapping
    replacement of every occurrence of a non-empty pattern); both call sites
    use the non-empty literal patterns `$nodeId` and `$issueId`.
  * `Json` models `serde_json::Value`; numbers are modelled as integers
    (floating values play no role in any behaviour considered here).
    `Json.idx` is the `value[key]` indexing that yields `Null` when the key
    is missing or the value is not an object; `Json.get` is `Value::get`.
  * `handle_webhook` takes the inbound payload together with an `Env` that
    supplies the `GITHUB_TOKEN` variable and the canned results of the (at
    most) two GraphQL transport calls and of the final octocrab mutation
    call.  It returns the HTTP outcome (`ok` = the 200 acknowledgment,
    `crash` = a panic from `expect`/`unwrap`) together with a `Trace` of the
    GraphQL query documents actually sent and the mutation requests issued.
-/

set_option maxRecDepth 20000

namespace CardMover

/-- Decides whether the first list is a prefix of the second
(character-by-character), mirroring the matching step of Rust
`str::replace`. -/
def isPre : List Char → List Char → Bool
  | [], _ => true
  | _ :: _, [] => false
  | p :: ps, c :: cs => p == c && isPre ps cs

/-- Rust `str::replace`: scan left to right; at each position, if the
(non-empty) pattern matches, emit the replacement and skip the pattern,
otherwise emit the current character.  (For an empty pattern this definition
copies the input; both call sites in the source use non-empty literal
patterns.) -/
def replaceAll (pat rep : List Char) : List Char → List Char
  | [] => []
  | c :: cs =>
    if h : pat ≠ [] ∧ isPre pat (c :: cs) = true then
      rep ++ replaceAll pat rep (List.drop pat.length (c :: cs))
    else
      c :: replaceAll pat rep cs
termination_by l => l.length
decreasing_by
  · have hlen : 0 < pat.length := List.length_pos.mpr h.1
    simp only [List.length_drop, List.length_cons]
    omega
  · simp

/-- Number of positions of the list at which the pattern occurs (counting
possibly-overlapping occurrences). -/
def countOccur (pat : List Char) : List Char → Nat
  | [] => 0
  | c :: cs => (if isPre pat (c :: cs) = true then 1 else 0) + countOccur pat cs

/-- `pat` occurs somewhere in `l` as a contiguous substring. -/
def containsSub (pat l : List Char) : Prop :=
  ∃ a b, l = a ++ pat ++ b

/-- The raw GraphQL template of `prepare_graphql_query`, transcribed line by
line from the source (`{` = `\x7b`, `}` = `\x7d`). -/
def query_template : String :=
  "\n" ++
  "    query \x7b\n" ++
  "        node(id: \"$nodeId\") \x7b\n" ++
  "            ... on ProjectV2Item \x7b\n" ++
  "                id\n" ++
  "                fieldValues(first: 8) \x7b\n" ++
  "                    nodes \x7b\n" ++
  "                        ... on ProjectV2ItemFieldTextValue \x7b\n" ++
  "                            text\n" ++
  "                            field \x7b\n" ++
  "                                ... on ProjectV2FieldCommon \x7b\n" ++
  "                                    name\n" ++
  "                                \x7d\n" ++
  "                            \x7d\n" ++
  "                        \x7d\n" ++
  "                        ... on ProjectV2ItemFieldDateValue \x7b\n" ++
  "                            date\n" ++
  "                            field \x7b\n" ++
  "                                ... on ProjectV2FieldCommon \x7b\n" ++
  "                                    name\n" ++
  "                                \x7d\n" ++
  "                            \x7d\n" ++
  "                        \x7d\n" ++
  "                        ... on ProjectV2ItemFieldSingleSelectValue \x7b\n" ++
  "                            name\n" ++
  "                            field \x7b\n" ++
  "                                ... on ProjectV2FieldCommon \x7b\n" ++
  "                                    name\n" ++
  "                                \x7d\n" ++
  "                            \x7d\n" ++
  "                        \x7d\n" ++
  "                    \x7d\n" ++
  "                \x7d\n" ++
  "                content \x7b\n" ++
  "                    ... on Issue \x7b\n" ++
  "                        id\n" ++
  "                        title\n" ++
  "                        repository \x7b\n" ++
  "                            name\n" ++
  "                            owner \x7b\n" ++
  "                                login\n" ++
  "                            \x7d\n" ++
  "                        \x7d\n" ++
  "                        assignees(first: 10) \x7b\n" ++
  "                            nodes \x7b\n" ++
  "                                login\n" ++
  "                            \x7d\n" ++
  "                        \x7d\n" ++
  "                    \x7d\n" ++
  "                    ... on PullRequest \x7b\n" ++
  "                        id\n" ++
  "                        title\n" ++
  "                        assignees(first: 10) \x7b\n" ++
  "                            nodes \x7b\n" ++
  "                                login\n" ++
  "                            \x7d\n" ++
  "                        \x7d\n" ++
  "                    \x7d\n" ++
  "                \x7d\n" ++
  "            \x7d\n" ++
  "        \x7d\n" ++
  "    \x7d\n" ++
  "    "

/-- The raw GraphQL template of `prepare_issue_number_query`. -/
def issue_number_template : String :=
  "\n" ++
  "    query \x7b\n" ++
  "        node(id: \"$issueId\") \x7b\n" ++
  "            ... on Issue \x7b\n" ++
  "                number\n" ++
  "            \x7d\n" ++
  "        \x7d\n" ++
  "    \x7d\n" ++
  "    "

/-- `prepare_graphql_query`: substitutes the node identifier for the
`$nodeId` placeholder of the template (Rust `str::replace`). -/
def prepare_graphql_query (node_id : List Char) : List Char :=
  replaceAll (("$nodeId").data) node_id query_template.data

/-- `prepare_issue_number_query`: substitutes the issue identifier for the
`$issueId` placeholder of the template. -/
def prepare_issue_number_query (issue_id : List Char) : List Char :=
  replaceAll (("$issueId").data) issue_id issue_number_template.data

/-- The part of `query_template` strictly before the `$nodeId` placeholder,
up to the start of the `node(id: "` fragment. -/
def preAData : List Char := ("\n    query \x7b\n        ").data

/-- The part of `query_template` strictly before the `$nodeId` placeholder. -/
def preData : List Char := preAData ++ (("node(id: \"").data)

/-- First half of the tail of `query_template` after the closing `")`
that follows the placeholder (through the end of `fieldValues`). -/
def sufRest2StrA : String :=
  " \x7b\n" ++
  "            ... on ProjectV2Item \x7b\n" ++
  "                id\n" ++
  "                fieldValues(first: 8) \x7b\n" ++
  "                    nodes \x7b\n" ++
  "                        ... on ProjectV2ItemFieldTextValue \x7b\n" ++
  "                            text\n" ++
  "                            field \x7b\n" ++
  "                                ... on ProjectV2FieldCommon \x7b\n" ++
  "                                    name\n" ++
  "                                \x7d\n" ++
  "                            \x7d\n" ++
  "                        \x7d\n" ++
  "                        ... on ProjectV2ItemFieldDateValue \x7b\n" ++
  "                            date\n" ++
  "                            field \x7b\n" ++
  "                                ... on ProjectV2FieldCommon \x7b\n" ++
  "                                    name\n" ++
  "                                \x7d\n" ++
  "                            \x7d\n" ++
  "                        \x7d\n" ++
  "                        ... on ProjectV2ItemFieldSingleSelectValue \x7b\n" ++
  "                            name\n" ++
  "                            field \x7b\n" ++
  "                                ... on ProjectV2FieldCommon \x7b\n" ++
  "                                    name\n" ++
  "                                \x7d\n" ++
  "                            \x7d\n" ++
  "                        \x7d\n" ++
  "                    \x7d\n" ++
  "                \x7d\n"

/-- Second half of that tail (from `content` to the end). -/
def sufRest2StrB : String :=
  "                content \x7b\n" ++
  "                    ... on Issue \x7b\n" ++
  "                        id\n" ++
  "                        title\n" ++
  "                        repository \x7b\n" ++
  "                            name\n" ++
  "                            owner \x7b\n" ++
  "                                login\n" ++
  "                            \x7d\n" ++
  "                        \x7d\n" ++
  "                        assignees(first: 10) \x7b\n" ++
  "                            nodes \x7b\n" ++
  "                                login\n" ++
  "                            \x7d\n" ++
  "                        \x7d\n" ++
  "                    \x7d\n" ++
  "                    ... on PullRequest \x7b\n" ++
  "                        id\n" ++
  "                        title\n" ++
  "                        assignees(first: 10) \x7b\n" ++
  "                            nodes \x7b\n" ++
  "                                login\n" ++
  "                            \x7d\n" ++
  "                        \x7d\n" ++
  "                    \x7d\n" ++
  "                \x7d\n" ++
  "            \x7d\n" ++
  "        \x7d\n" ++
  "    \x7d\n" ++
  "    "

/-- The tail of `query_template` after the closing `")` that follows the
placeholder. -/
def sufRest2Str : String := sufRest2StrA ++ sufRest2StrB

/-- The part of `query_template` strictly after the `$nodeId` placeholder. -/
def sufData : List Char := (("\")").data) ++ sufRest2Str.data

/-- The suffix minus its leading quote character. -/
def sufAfterQuote : List Char := ((")") ++ sufRest2Str).data

theorem template_decomp :
    query_template.data = preData ++ (("$nodeId").data) ++ sufData := by
  rfl

theorem sufData_cons : sufData = '"' :: sufAfterQuote := by
  rfl

/-- `serde_json::Value` (numbers modelled as integers). -/
inductive Json where
  | null
  | bool (b : Bool)
  | num (n : Int)
  | str (s : String)
  | arr (elems : List Json)
  | obj (fields : List (String × Json))

/-- First binding of a key in an object's field list. -/
def lookupField : List (String × Json) → String → Option Json
  | [], _ => none
  | (k, v) :: rest, key => if k = key then some v else lookupField rest key

/-- `Value::get(key)`: `some` only on objects that bind the key. -/
def Json.get (j : Json) (key : String) : Option Json :=
  match j with
  | Json.obj fields => lookupField fields key
  | _ => none

/-- `value[key]` indexing: `Null` when the key is missing or the value is
not an object. -/
def Json.idx (j : Json) (key : String) : Json :=
  match Json.get j key with
  | some v => v
  | none => Json.null

/-- `Value::as_str`. -/
def Json.asStr : Json → Option String
  | Json.str s => some s
  | _ => none

/-- `Value::as_array`. -/
def Json.asArr : Json → Option (List Json)
  | Json.arr elems => some elems
  | _ => none

/-- `Value::as_u64` (defined on non-negative integer numbers). -/
def Json.asU64 : Json → Option Nat
  | Json.num n => if 0 ≤ n then some n.toNat else none
  | _ => none

/-- The field-value scan loop of `handle_webhook`: `is_done` becomes true at
the first node whose `field.name` is `"Status"` and whose `name` is
`"Done"`; the loop breaks there. -/
def scanDone : List Json → Bool
  | [] => false
  | fv :: rest =>
    if Json.asStr (Json.idx (Json.idx fv ("field")) ("name")) = some ("Status")
        ∧ Json.asStr (Json.idx fv ("name")) = some ("Done") then
      true
    else
      scanDone rest

/-- `json["data"]["node"]["fieldValues"]["nodes"].as_array()`. -/
def fieldNodes (j : Json) : Option (List Json) :=
  Json.asArr (Json.idx (Json.idx (Json.idx (Json.idx j ("data")) ("node")) ("fieldValues")) ("nodes"))

/-- The whole `is_done` computation on the first response: the scan runs
only when the nodes array is present, otherwise `is_done` stays false. -/
def doneOf (j : Json) : Bool :=
  match fieldNodes j with
  | some nodes => scanDone nodes
  | none => false

/-- `json["data"]["node"]["content"]["id"].as_str()`. -/
def contentId (j : Json) : Option String :=
  Json.asStr (Json.idx (Json.idx (Json.idx (Json.idx j ("data")) ("node")) ("content")) ("id"))

/-- `json["data"]["node"]["content"]["repository"]["name"].as_str()`. -/
def repoName (j : Json) : Option String :=
  Json.asStr (Json.idx (Json.idx (Json.idx (Json.idx (Json.idx j ("data")) ("node")) ("content")) ("repository")) ("name"))

/-- `json["data"]["node"]["content"]["repository"]["owner"]["login"].as_str()`. -/
def ownerLogin (j : Json) : Option String :=
  Json.asStr (Json.idx (Json.idx (Json.idx (Json.idx (Json.idx (Json.idx j ("data")) ("node")) ("content")) ("repository")) ("owner")) ("login"))

/-- `issue_json["data"]["node"]["number"].as_u64()` on the second response. -/
def issueNumberOf (j : Json) : Option Nat :=
  Json.asU64 (Json.idx (Json.idx (Json.idx j ("data")) ("node")) ("number"))

/-- The close-issue request issued through octocrab:
`issues(owner, repo).update(number).state(Closed)`. -/
structure MutationReq where
  owner : String
  repo : String
  number : Nat
  state : String
deriving DecidableEq

/-- Outcome of one handler invocation: the 200 acknowledgment with its body,
or a panic (from `expect` on the token or `unwrap` on the mutation call). -/
inductive HandlerOutcome where
  | ok (body : String)
  | crash (msg : String)
deriving DecidableEq

/-- Per-invocation environment: the `GITHUB_TOKEN` variable and the results
the external world returns for the first GraphQL call, the second GraphQL
call, and the octocrab mutation call (in the order the handler would issue
them). -/
structure Env where
  token : Option String
  firstResponse : Except String Json
  secondResponse : Except String Json
  mutationResult : Except String Unit

/-- Observable outbound effects of one invocation: the GraphQL query
documents sent (in order) and the mutation requests issued. -/
structure Trace where
  queries : List (List Char)
  mutations : List MutationReq
deriving DecidableEq

/-- Direct translation of `handle_webhook` from `src/main.rs`. -/
def handle_webhook (payload : Json) (env : Env) : HandlerOutcome × Trace :=
  match env.token with
  | none => (HandlerOutcome.crash ("GITHUB_TOKEN must be set"), ⟨[], []⟩)
  | some _token =>
    match Json.get payload ("action") with
    | none => (HandlerOutcome.ok ("Webhook received"), ⟨[], []⟩)
    | some action =>
      if Json.asStr action = some ("reordered") then
        match Option.bind (Json.get payload ("projects_v2_item")) (fun item => Json.get item ("node_id")) with
        | none => (HandlerOutcome.ok ("Webhook received"), ⟨[], []⟩)
        | some node_id =>
          let node_id_str : String := Option.getD (Json.asStr node_id) ("")
          let query : List Char := prepare_graphql_query node_id_str.data
          match env.firstResponse with
          | Except.error _ => (HandlerOutcome.ok ("Webhook received"), ⟨[query], []⟩)
          | Except.ok json =>
            let is_done : Bool := doneOf json
            if is_done then
              match contentId json with
              | none => (HandlerOutcome.ok ("Webhook received"), ⟨[query], []⟩)
              | some issue_id =>
                let issue_number_query : List Char := prepare_issue_number_query issue_id.data
                match env.secondResponse with
                | Except.error _ => (HandlerOutcome.ok ("Webhook received"), ⟨[query, issue_number_query], []⟩)
                | Except.ok issue_json =>
                  match issueNumberOf issue_json with
                  | none => (HandlerOutcome.ok ("Webhook received"), ⟨[query, issue_number_query], []⟩)
                  | some issue_number =>
                    match repoName json with
                    | none => (HandlerOutcome.ok ("Webhook received"), ⟨[query, issue_number_query], []⟩)
                    | some repo_name =>
                      match ownerLogin json with
                      | none => (HandlerOutcome.ok ("Webhook received"), ⟨[query, issue_number_query], []⟩)
                      | some repo_owner =>
                        match env.mutationResult with
                        | Except.ok _ =>
                          (HandlerOutcome.ok ("Webhook received"),
                            ⟨[query, issue_number_query], [⟨repo_owner, repo_name, issue_number, ("closed")⟩]⟩)
                        | Except.error e =>
                          (HandlerOutcome.crash e,
                            ⟨[query, issue_number_query], [⟨repo_owner, repo_name, issue_number, ("closed")⟩]⟩)
            else
              (HandlerOutcome.ok ("Webhook received"), ⟨[query], []⟩)
      else
        (HandlerOutcome.ok ("Webhook received"), ⟨[], []⟩)

/-- Webhook payload with `action` = "reordered" and the given
`projects_v2_item.node_id` value. -/
def reorderedPayload (nid : Json) : Json :=
  Json.obj [(("action"), Json.str ("reordered")), (("projects_v2_item"), Json.obj [(("node_id"), nid)])]

/-- A `ProjectV2ItemFieldSingleSelectValue` node (value under `name`). -/
def selectNode (fname v : String) : Json :=
  Json.obj [(("name"), Json.str v), (("field"), Json.obj [(("name"), Json.str fname)])]

/-- A `ProjectV2ItemFieldTextValue` node (value under `text`). -/
def textNode (fname v : String) : Json :=
  Json.obj [(("text"), Json.str v), (("field"), Json.obj [(("name"), Json.str fname)])]

/-- A `ProjectV2ItemFieldDateValue` node (value under `date`). -/
def dateNode (fname v : String) : Json :=
  Json.obj [(("date"), Json.str v), (("field"), Json.obj [(("name"), Json.str fname)])]

/-- First-query response with the given field-value nodes and content. -/
def firstRespJson (nodes : List Json) (content : Json) : Json :=
  Json.obj [(("data"), Json.obj [(("node"), Json.obj [(("fieldValues"), Json.obj [(("nodes"), Json.arr nodes)]), (("content"), content)])])]

/-- Issue content with identifier and repository coordinates. -/
def issueContent (iid repo owner : String) : Json :=
  Json.obj [(("id"), Json.str iid), (("repository"), Json.obj [(("name"), Json.str repo), (("owner"), Json.obj [(("login"), Json.str owner)])])]

/-- Second-query response carrying the repository-scoped issue number. -/
def secondRespJson (n : Int) : Json :=
  Json.obj [(("data"), Json.obj [(("node"), Json.obj [(("number"), Json.num n)])])]

/-- `preData` without its final quote character. -/
def preInitData : List Char := preAData ++ (("node(id: ").data)

theorem preData_decomp : preData = preInitData ++ ['"'] := by
  rfl

/-- Tail-evaluating check that the pattern occurs nowhere in the list. -/
def noOccur (pat : List Char) : List Char → Bool
  | [] => true
  | c :: cs => !(isPre pat (c :: cs)) && noOccur pat cs

/-- Tail-evaluating check that the pattern occurs at one position at least. -/
def oneOccur (pat : List Char) : List Char → Bool
  | [] => false
  | c :: cs => isPre pat (c :: cs) || oneOccur pat cs

/-- Tail-evaluating check that the pattern occurs at two positions at least. -/
def twoOccur (pat : List Char) : List Char → Bool
  | [] => false
  | c :: cs => if isPre pat (c :: cs) = true then oneOccur pat cs else twoOccur pat cs

theorem noOccur_eq_zero (pat : List Char) :
    ∀ l : List Char, noOccur pat l = true → countOccur pat l = 0 := by
  intro l
  induction l with
  | nil => intro _; rfl
  | cons c cs ih =>
    intro h
    rw [noOccur, Bool.and_eq_true, Bool.not_eq_true'] at h
    rw [countOccur, ih h.2, if_neg (by simp [h.1])]

theorem oneOccur_le (pat : List Char) :
    ∀ l : List Char, oneOccur pat l = true → 1 ≤ countOccur pat l := by
  intro l
  induction l with
  | nil => intro h; simp [oneOccur] at h
  | cons c cs ih =>
    intro h
    rw [oneOccur, Bool.or_eq_true] at h
    rw [countOccur]
    rcases h with h | h
    · rw [if_pos h]; omega
    · have := ih h; omega

theorem twoOccur_le (pat : List Char) :
    ∀ l : List Char, twoOccur pat l = true → 2 ≤ countOccur pat l := by
  intro l
  induction l with
  | nil => intro h; simp [twoOccur] at h
  | cons c cs ih =>
    intro h
    rw [twoOccur] at h
    rw [countOccur]
    by_cases hp : isPre pat (c :: cs) = true
    · rw [if_pos hp] at h
      have := oneOccur_le pat cs h
      rw [if_pos hp]
      omega
    · rw [if_neg hp] at h
      have := ih h
      omega

theorem all_ne_char (x : Char) (l : List Char) (h : l.all (fun c => c != x) = true) :
    ∀ c ∈ l, c ≠ x := by
  intro c hc
  have h2 := List.all_eq_true.mp h c hc
  simpa using h2

theorem sufData_split :
    sufData = (("\")").data) ++ sufRest2StrA.data ++ sufRest2StrB.data := by
  rfl

/-- Chunked evaluation of a character test over the template suffix (its two
halves are each small enough to evaluate directly). -/
theorem sufData_all_ne (x : Char)
    (h0 : (("\")").data).all (fun c => c != x) = true)
    (hA : sufRest2StrA.data.all (fun c => c != x) = true)
    (hB : sufRest2StrB.data.all (fun c => c != x) = true) :
    ∀ c ∈ sufData, c ≠ x := by
  intro c hc
  rw [sufData_split] at hc
  rcases List.mem_append.mp hc with h | h
  · rcases List.mem_append.mp h with h2 | h2
    · exact all_ne_char x ((("\")").data)) h0 c h2
    · exact all_ne_char x sufRest2StrA.data hA c h2
  · exact all_ne_char x sufRest2StrB.data hB c h

theorem isPre_append_self (s t : List Char) : isPre s (s ++ t) = true := by
  induction s with
  | nil => simp [isPre]
  | cons p ps ih => simp [isPre, ih]

theorem isPre_exists {s l : List Char} (h : isPre s l = true) : ∃ t, l = s ++ t := by
  induction s generalizing l with
  | nil => exact ⟨l, rfl⟩
  | cons p ps ih =>
    cases l with
    | nil => simp [isPre] at h
    | cons c cs =>
      simp only [isPre, Bool.and_eq_true, beq_iff_eq] at h
      obtain ⟨hpc, h2⟩ := h
      subst hpc
      obtain ⟨t, ht⟩ := ih h2
      exact ⟨t, by rw [ht]; rfl⟩

theorem replaceAll_nil (pat rep : List Char) : replaceAll pat rep [] = [] := by
  simp [replaceAll]

theorem replaceAll_skip_head (p c : Char) (ps rep cs : List Char) (h : c ≠ p) :
    replaceAll (p :: ps) rep (c :: cs) = c :: replaceAll (p :: ps) rep cs := by
  rw [replaceAll, dif_neg]
  rintro ⟨-, hp2⟩
  simp only [isPre, Bool.and_eq_true, beq_iff_eq] at hp2
  exact h hp2.1.symm

theorem replaceAll_match (pat rep rest : List Char) (h : pat ≠ []) :
    replaceAll pat rep (pat ++ rest) = rep ++ replaceAll pat rep rest := by
  obtain ⟨p, ps, rfl⟩ : ∃ p ps, pat = p :: ps := by
    cases pat with
    | nil => exact absurd rfl h
    | cons p ps => exact ⟨p, ps, rfl⟩
  have hcond : (p :: ps ≠ [] ∧ isPre (p :: ps) (p :: (ps ++ rest)) = true) :=
    ⟨by simp, by simpa using isPre_append_self (p :: ps) rest⟩
  rw [List.cons_append, replaceAll, dif_pos hcond]
  congr 1
  rw [List.length_cons, List.drop_succ_cons, List.drop_left]

theorem replaceAll_pass (p : Char) (ps rep : List Char) :
    ∀ A rest : List Char, (∀ c ∈ A, c ≠ p) →
      replaceAll (p :: ps) rep (A ++ rest) = A ++ replaceAll (p :: ps) rep rest := by
  intro A
  induction A with
  | nil => intro rest _; simp
  | cons a A ih =>
    intro rest hA
    rw [List.cons_append,
      replaceAll_skip_head p a ps rep (A ++ rest) (hA a (List.mem_cons_self a A)),
      ih rest (fun c hc => hA c (List.mem_cons_of_mem a hc))]
    rfl

theorem replaceAll_id (p : Char) (ps rep l : List Char) (h : ∀ c ∈ l, c ≠ p) :
    replaceAll (p :: ps) rep l = l := by
  have h2 := replaceAll_pass p ps rep l [] h
  simpa [replaceAll_nil] using h2

theorem prepare_eq (s : List Char) :
    prepare_graphql_query s = preData ++ s ++ sufData := by
  have hpre : ∀ c ∈ preData, c ≠ '$' := by decide
  have hsuf : ∀ c ∈ sufData, c ≠ '$' := sufData_all_ne '$' (by rfl) (by rfl) (by rfl)
  show replaceAll (("$nodeId").data) s query_template.data = _
  rw [template_decomp]
  have hph : ("$nodeId").data = '$' :: (("nodeId").data) := rfl
  rw [List.append_assoc, hph,
    replaceAll_pass '$' (("nodeId").data) s preData _ hpre,
    replaceAll_match ('$' :: (("nodeId").data)) s sufData (by simp),
    replaceAll_id '$' (("nodeId").data) s sufData hsuf,
    List.append_assoc]

theorem countOccur_nil (pat : List Char) : countOccur pat [] = 0 := rfl

theorem countOccur_cons (pat : List Char) (c : Char) (cs : List Char) :
    countOccur pat (c :: cs) = (if isPre pat (c :: cs) = true then 1 else 0) + countOccur pat cs := rfl

theorem countOccur_head_not_mem (p : Char) (ps l : List Char) (h : p ∉ l) :
    countOccur (p :: ps) l = 0 := by
  induction l with
  | nil => rfl
  | cons c cs ih =>
    rw [countOccur_cons]
    have hc : ¬ isPre (p :: ps) (c :: cs) = true := by
      intro hp
      simp only [isPre, Bool.and_eq_true, beq_iff_eq] at hp
      exact h (by rw [hp.1]; exact List.mem_cons_self c cs)
    rw [if_neg hc, ih (fun hm => h (List.mem_cons_of_mem c hm))]

theorem countOccur_skip_block (s B : List Char) (q : Char) (hq : q ∉ s) :
    ∀ A : List Char, countOccur s (A ++ [q]) = 0 →
      countOccur s (A ++ q :: B) = countOccur s B := by
  intro A
  induction A with
  | nil =>
    intro h0
    rw [List.nil_append] at h0 ⊢
    have hnp : ¬ isPre s (q :: B) = true := by
      intro hp
      obtain ⟨t, ht⟩ := isPre_exists hp
      cases s with
      | nil => simp [countOccur_cons, countOccur_nil, isPre] at h0
      | cons c s2 =>
        rw [List.cons_append] at ht
        injection ht with h1 _
        exact hq (by rw [h1]; exact List.mem_cons_self c s2)
    rw [countOccur_cons, if_neg hnp]
    omega
  | cons a A ih =>
    intro h0
    rw [List.cons_append, countOccur_cons] at h0
    have h1 : countOccur s (A ++ [q]) = 0 := by omega
    have h2 : ¬ isPre s (a :: (A ++ [q])) = true := by
      intro hp
      rw [if_pos hp] at h0
      omega
    rw [List.cons_append, countOccur_cons, ih h1]
    have hnp : ¬ isPre s (a :: (A ++ q :: B)) = true := by
      intro hp
      obtain ⟨t, ht⟩ := isPre_exists hp
      have hX : (a :: (A ++ [q])) ++ B = s ++ t := by
        simpa [List.append_assoc] using ht
      rcases List.append_eq_append_iff.mp hX with ⟨a2, ha2, -⟩ | ⟨c2, hc2, -⟩
      · have hqs : q ∈ s := by
          rw [ha2]
          exact List.mem_append_left a2
            (List.mem_cons_of_mem a (List.mem_append_right A (by simp)))
        exact hq hqs
      · exact h2 (by rw [hc2]; exact isPre_append_self s c2)
    rw [if_neg hnp]
    omega

theorem countOccur_short_last (s : List Char) (q : Char) (hq : q ∉ s) :
    ∀ A : List Char, A.length < s.length → countOccur s (A ++ [q]) = 0 := by
  intro A
  induction A with
  | nil =>
    intro hlen
    rw [List.nil_append, countOccur_cons, countOccur_nil]
    have hnp : ¬ isPre s (q :: ([] : List Char)) = true := by
      intro hp
      obtain ⟨t, ht⟩ := isPre_exists hp
      cases s with
      | nil => simp at hlen
      | cons c s2 =>
        rw [List.cons_append] at ht
        injection ht with h1 _
        exact hq (by rw [h1]; exact List.mem_cons_self c s2)
    rw [if_neg hnp]
  | cons a A ih =>
    intro hlen
    have h1 : A.length < s.length := by
      simp only [List.length_cons] at hlen
      omega
    rw [List.cons_append, countOccur_cons, ih h1]
    have hnp : ¬ isPre s (a :: (A ++ [q])) = true := by
      intro hp
      obtain ⟨t, ht⟩ := isPre_exists hp
      have hlen2 : (a :: (A ++ [q])).length = s.length + t.length := by
        rw [ht, List.length_append]
      have hlen3 : (a :: (A ++ [q])).length = A.length + 2 := by simp
      have hlen4 : A.length + 1 < s.length := by
        simpa using hlen
      have ht0 : t = [] := by
        have hl0 : t.length = 0 := by omega
        exact List.length_eq_zero.mp hl0
      subst ht0
      rw [List.append_nil] at ht
      exact hq (by rw [← ht]; exact List.mem_cons_of_mem a (List.mem_append_right A (by simp)))
    rw [if_neg hnp]

theorem countOccur_insert_once (s : List Char) (hne : s ≠ []) (hq : '"' ∉ s)
    (hpre0 : countOccur s preData = 0) (hsuf0 : countOccur s sufData = 0) :
    countOccur s (preData ++ s ++ sufData) = 1 := by
  obtain ⟨c, s2, rfl⟩ : ∃ c s2, s = c :: s2 := by
    cases s with
    | nil => exact absurd rfl hne
    | cons c s2 => exact ⟨c, s2, rfl⟩
  have h1 : preData ++ (c :: s2) ++ sufData = preInitData ++ '"' :: ((c :: s2) ++ sufData) := by
    rw [preData_decomp]
    simp [List.append_assoc]
  rw [h1,
    countOccur_skip_block (c :: s2) ((c :: s2) ++ sufData) '"' hq preInitData
      (by rw [← preData_decomp]; exact hpre0)]
  rw [List.cons_append, countOccur_cons]
  have hself : isPre (c :: s2) (c :: (s2 ++ sufData)) = true := by
    simpa using isPre_append_self (c :: s2) sufData
  rw [if_pos hself, sufData_cons,
    countOccur_skip_block (c :: s2) sufAfterQuote '"' hq s2
      (countOccur_short_last (c :: s2) '"' hq s2 (by simp))]
  have h2 : countOccur (c :: s2) sufAfterQuote = 0 := by
    rw [sufData_cons, countOccur_cons] at hsuf0
    omega
  rw [h2]

theorem countOccur_append_ge (pat A B : List Char) :
    countOccur pat B ≤ countOccur pat (A ++ B) := by
  induction A with
  | nil => simp
  | cons a A ih =>
    rw [List.cons_append, countOccur_cons]
    omega

theorem countOccur_ge_one_plus (pat A B : List Char) (hne : pat ≠ []) :
    1 + countOccur pat B ≤ countOccur pat (A ++ (pat ++ B)) := by
  induction A with
  | nil =>
    rw [List.nil_append]
    obtain ⟨p, ps, rfl⟩ : ∃ p ps, pat = p :: ps := by
      cases pat with
      | nil => exact absurd rfl hne
      | cons p ps => exact ⟨p, ps, rfl⟩
    rw [List.cons_append, countOccur_cons,
      if_pos (by simpa using isPre_append_self (p :: ps) B)]
    have := countOccur_append_ge (p :: ps) ps B
    omega
  | cons a A ih =>
    rw [List.cons_append, countOccur_cons]
    omega

/-- C6 counterexample: for the non-empty alphanumeric identifier `id`, the
built document does not contain the identifier exactly once — `id` already
occurs in the fixed template text (`node(id:`, the `id` fields), so the
claimed uniqueness fails. -/
theorem c6_counterexample :
    countOccur (("id").data) (prepare_graphql_query (("id").data)) ≠ 1 := by
  rw [prepare_eq]
  have hsplit : preData ++ (("id").data) ++ sufData
      = (("\n    query \x7b\n        node(").data)
        ++ ((("id").data) ++ (((": \"").data) ++ ((("id").data) ++ sufData))) := by rfl
  rw [hsplit]
  have h1 := countOccur_ge_one_plus (("id").data)
    ((("\n    query \x7b\n        node(").data))
    (((": \"").data) ++ ((("id").data) ++ sufData)) (by decide)
  have h2 := countOccur_ge_one_plus (("id").data) ((": \"").data) sufData (by decide)
  have h3 := countOccur_append_ge (("id").data) ((": \"").data) ((("id").data) ++ sufData)
  omega

/-- C6 (amended): for every non-empty alphanumeric identifier `s` that does
not occur in the fixed template text surrounding the substitution point, the
built document contains the literal fragment `node(id: "s")` at the
substitution point, `s` occurs exactly once in the document, and the
placeholder token `$nodeId` does not occur at all. -/
theorem c6_amended_substitution (s : List Char) (hne : s ≠ [])
    (halnum : ∀ c ∈ s, c.isAlphanum = true)
    (hpre0 : countOccur s preData = 0) (hsuf0 : countOccur s sufData = 0) :
    containsSub ((("node(id: \"").data) ++ s ++ (("\")").data)) (prepare_graphql_query s)
    ∧ countOccur s (prepare_graphql_query s) = 1
    ∧ countOccur (("$nodeId").data) (prepare_graphql_query s) = 0 := by
  have hq : '"' ∉ s := fun hm => absurd (halnum _ hm) (by decide)
  have hd : '$' ∉ s := fun hm => absurd (halnum _ hm) (by decide)
  have hout := prepare_eq s
  refine ⟨⟨preAData, sufRest2Str.data, ?_⟩, ?_, ?_⟩
  · rw [hout]
    show preData ++ s ++ sufData
      = preAData ++ ((("node(id: \"").data) ++ s ++ (("\")").data)) ++ sufRest2Str.data
    simp only [preData, sufData, List.append_assoc]
  · rw [hout]
    exact countOccur_insert_once s hne hq hpre0 hsuf0
  · rw [hout]
    have hcons : ("$nodeId").data = '$' :: (("nodeId").data) := rfl
    rw [hcons]
    apply countOccur_head_not_mem
    intro hm
    simp only [List.mem_append] at hm
    rcases hm with (hm | hm) | hm
    · exact absurd hm (by decide)
    · exact hd hm
    · exact sufData_all_ne '$' (by rfl) (by rfl) (by rfl) '$' hm rfl

/-- The template suffix contains no capital `A`, so no identifier starting
with `A` occurs in it. -/
theorem sufData_count_A (ps : List Char) : countOccur ('A' :: ps) sufData = 0 :=
  countOccur_head_not_mem 'A' ps sufData
    (fun hm => sufData_all_ne 'A' (by rfl) (by rfl) (by rfl) 'A' hm rfl)

/-- Witness for C6 (amended) at the identifier `ABC123` from the spec. -/
theorem c6_witness :
    ((("ABC123").data ≠ []) ∧ (∀ c ∈ ("ABC123").data, c.isAlphanum = true)
      ∧ countOccur (("ABC123").data) preData = 0
      ∧ countOccur (("ABC123").data) sufData = 0)
    ∧ (containsSub ((("node(id: \"").data) ++ ("ABC123").data ++ (("\")").data))
          (prepare_graphql_query (("ABC123").data))
        ∧ countOccur (("ABC123").data) (prepare_graphql_query (("ABC123").data)) = 1
        ∧ countOccur (("$nodeId").data) (prepare_graphql_query (("ABC123").data)) = 0) :=
  ⟨⟨by decide, by decide, by decide, sufData_count_A (("BC123").data)⟩,
    c6_amended_substitution (("ABC123").data) (by decide) (by decide) (by decide)
      (sufData_count_A (("BC123").data))⟩

theorem empty_string_data : ("" : String).data = ([] : List Char) := rfl

/-- Whenever the token is set and the mutation call (if reached) succeeds,
the handler ends in the fixed 200 acknowledgment. -/
theorem handler_ack (p : Json) (env : Env) (t : String) (htok : env.token = some t)
    (hmut : env.mutationResult = Except.ok ()) :
    (handle_webhook p env).1 = HandlerOutcome.ok ("Webhook received") := by
  simp only [handle_webhook, htok]
  repeat' split
  all_goals simp_all

/-- Whenever the payload passes the action and node-id checks, the first
document sent is the field-values query built from the extracted identifier
(empty string when the value is not a string). -/
theorem handler_first_query (p : Json) (env : Env) (t : String) (a nid : Json)
    (htok : env.token = some t)
    (hact : Json.get p ("action") = some a)
    (har : Json.asStr a = some ("reordered"))
    (hnid : Option.bind (Json.get p ("projects_v2_item")) (fun item => Json.get item ("node_id")) = some nid) :
    (handle_webhook p env).2.queries.head?
      = some (prepare_graphql_query ((Option.getD (Json.asStr nid) ("")).data)) := by
  simp only [handle_webhook, htok, hact, har, hnid]
  repeat' split
  all_goals simp_all

/-- C10: the `GITHUB_TOKEN` variable is read (with a panicking `expect`)
before any payload field is inspected, so with the variable unset every
invocation panics — no remote call is made and no 200 acknowledgment is
produced. -/
theorem c10_missing_token_crash (p : Json) (env : Env) (h : env.token = none) :
    handle_webhook p env = (HandlerOutcome.crash ("GITHUB_TOKEN must be set"), ⟨[], []⟩) := by
  simp only [handle_webhook, h]

/-- Witness for C10: a payload with no `action` field still panics when the
token is unset. -/
theorem c10_witness :
    (Env.mk none (Except.error ("")) (Except.error ("")) (Except.ok ())).token = none
    ∧ handle_webhook Json.null (Env.mk none (Except.error ("")) (Except.error ("")) (Except.ok ()))
      = (HandlerOutcome.crash ("GITHUB_TOKEN must be set"), ⟨[], []⟩) :=
  ⟨rfl, c10_missing_token_crash Json.null _ rfl⟩

/-- C4: for payloads missing `action`, with a non-"reordered" `action`, or
missing `projects_v2_item.node_id` (token present), no remote call of any
kind is made and the handler answers 200 with the fixed body. -/
theorem c4_irrelevant_payload_no_calls (p : Json) (env : Env) (t : String)
    (htok : env.token = some t)
    (h : Json.get p ("action") = none
      ∨ (∃ a, Json.get p ("action") = some a ∧ ¬ Json.asStr a = some ("reordered"))
      ∨ Option.bind (Json.get p ("projects_v2_item")) (fun item => Json.get item ("node_id")) = none) :
    handle_webhook p env = (HandlerOutcome.ok ("Webhook received"), ⟨[], []⟩) := by
  rcases h with h | ⟨a, ha, hne⟩ | h
  · simp only [handle_webhook, htok, h]
  · simp only [handle_webhook, htok, ha]
    rw [if_neg hne]
  · cases hact : Json.get p ("action") with
    | none => simp only [handle_webhook, htok, hact]
    | some a2 =>
      by_cases hr : Json.asStr a2 = some ("reordered")
      · simp only [handle_webhook, htok, hact, h]
        rw [if_pos hr]
      · simp only [handle_webhook, htok, hact]
        rw [if_neg hr]

/-- Witness for C4 at a payload with no `action` field. -/
theorem c4_witness :
    (Env.mk (some ("tok")) (Except.error ("")) (Except.error ("")) (Except.ok ())).token = some ("tok")
    ∧ (Json.get (Json.obj []) ("action") = none
      ∨ (∃ a, Json.get (Json.obj []) ("action") = some a ∧ ¬ Json.asStr a = some ("reordered"))
      ∨ Option.bind (Json.get (Json.obj []) ("projects_v2_item")) (fun item => Json.get item ("node_id")) = none)
    ∧ handle_webhook (Json.obj []) (Env.mk (some ("tok")) (Except.error ("")) (Except.error ("")) (Except.ok ()))
      = (HandlerOutcome.ok ("Webhook received"), ⟨[], []⟩) :=
  ⟨rfl, Or.inl rfl, c4_irrelevant_payload_no_calls _ _ _ rfl (Or.inl rfl)⟩

/-- C2: with a Done status in the first response, a content identifier, a
successful issue-number lookup, and repository owner and name present in the
first response, exactly one mutation request is issued, targeting exactly
that (owner, repo, number) triple with state "closed". -/
theorem c2_mutation_exact (p : Json) (env : Env) (t : String) (a nid j ij : Json)
    (nodes : List Json) (cid rn ow : String) (n : Nat)
    (htok : env.token = some t)
    (hact : Json.get p ("action") = some a)
    (har : Json.asStr a = some ("reordered"))
    (hnid : Option.bind (Json.get p ("projects_v2_item")) (fun item => Json.get item ("node_id")) = some nid)
    (hfr : env.firstResponse = Except.ok j)
    (hfn : fieldNodes j = some nodes)
    (hdone : scanDone nodes = true)
    (hcid : contentId j = some cid)
    (hsr : env.secondResponse = Except.ok ij)
    (hnum : issueNumberOf ij = some n)
    (hrn : repoName j = some rn)
    (how : ownerLogin j = some ow) :
    (handle_webhook p env).2.mutations = [⟨ow, rn, n, ("closed")⟩] := by
  cases hm : env.mutationResult with
  | ok u =>
    simp [handle_webhook, htok, hact, har, hnid, hfr, doneOf, hfn, hdone, hcid, hsr,
      hnum, hrn, how, hm]
  | error e =>
    simp [handle_webhook, htok, hact, har, hnid, hfr, doneOf, hfn, hdone, hcid, hsr,
      hnum, hrn, how, hm]

/-- Concrete first-response fixture for the C2 witness. -/
def c2Json : Json :=
  firstRespJson [selectNode ("Status") ("Done")] (issueContent ("I_5") ("repo5") ("owner5"))

/-- Concrete environment fixture for the C2 witness. -/
def c2Env : Env :=
  Env.mk (some ("tok")) (Except.ok c2Json) (Except.ok (secondRespJson 42)) (Except.ok ())

/-- Witness for C2 on a concrete Done pipeline closing issue 42 of
`owner5/repo5`. -/
theorem c2_witness :
    c2Env.token = some ("tok")
    ∧ Json.get (reorderedPayload (Json.str ("N1"))) ("action") = some (Json.str ("reordered"))
    ∧ Json.asStr (Json.str ("reordered")) = some ("reordered")
    ∧ Option.bind (Json.get (reorderedPayload (Json.str ("N1"))) ("projects_v2_item"))
        (fun item => Json.get item ("node_id")) = some (Json.str ("N1"))
    ∧ c2Env.firstResponse = Except.ok c2Json
    ∧ fieldNodes c2Json = some [selectNode ("Status") ("Done")]
    ∧ scanDone [selectNode ("Status") ("Done")] = true
    ∧ contentId c2Json = some ("I_5")
    ∧ c2Env.secondResponse = Except.ok (secondRespJson 42)
    ∧ issueNumberOf (secondRespJson 42) = some 42
    ∧ repoName c2Json = some ("repo5")
    ∧ ownerLogin c2Json = some ("owner5")
    ∧ (handle_webhook (reorderedPayload (Json.str ("N1"))) c2Env).2.mutations
        = [⟨("owner5"), ("repo5"), 42, ("closed")⟩] :=
  ⟨rfl, rfl, rfl, rfl, rfl, rfl, by decide, rfl, rfl, rfl, rfl, rfl,
    c2_mutation_exact (reorderedPayload (Json.str ("N1"))) c2Env ("tok")
      (Json.str ("reordered")) (Json.str ("N1")) c2Json (secondRespJson 42)
      [selectNode ("Status") ("Done")] ("I_5") ("repo5") ("owner5")
      42 rfl rfl rfl rfl rfl rfl (by decide) rfl rfl rfl rfl rfl⟩

/-- C7: when the pipeline reaches the first GraphQL call (token set, action
"reordered", node id present) and that call fails with a transport error,
the handler still answers 200, exactly one query document was sent (no
second call), and no mutation is attempted. -/
theorem c7_first_call_failure (p : Json) (env : Env) (t e : String) (a nid : Json)
    (htok : env.token = some t)
    (hact : Json.get p ("action") = some a)
    (har : Json.asStr a = some ("reordered"))
    (hnid : Option.bind (Json.get p ("projects_v2_item")) (fun item => Json.get item ("node_id")) = some nid)
    (hfr : env.firstResponse = Except.error e) :
    (handle_webhook p env).1 = HandlerOutcome.ok ("Webhook received")
    ∧ (handle_webhook p env).2.queries.length = 1
    ∧ (handle_webhook p env).2.mutations = [] := by
  simp [handle_webhook, htok, hact, har, hnid, hfr]

/-- Witness for C7 with a failing first call. -/
theorem c7_witness :
    (Env.mk (some ("tok")) (Except.error ("network down")) (Except.error ("")) (Except.ok ())).token = some ("tok")
    ∧ Json.get (reorderedPayload (Json.str ("N1"))) ("action") = some (Json.str ("reordered"))
    ∧ Json.asStr (Json.str ("reordered")) = some ("reordered")
    ∧ Option.bind (Json.get (reorderedPayload (Json.str ("N1"))) ("projects_v2_item"))
        (fun item => Json.get item ("node_id")) = some (Json.str ("N1"))
    ∧ (Env.mk (some ("tok")) (Except.error ("network down")) (Except.error ("")) (Except.ok ())).firstResponse
        = Except.error ("network down")
    ∧ ((handle_webhook (reorderedPayload (Json.str ("N1")))
          (Env.mk (some ("tok")) (Except.error ("network down")) (Except.error ("")) (Except.ok ()))).1
        = HandlerOutcome.ok ("Webhook received")
      ∧ (handle_webhook (reorderedPayload (Json.str ("N1")))
          (Env.mk (some ("tok")) (Except.error ("network down")) (Except.error ("")) (Except.ok ()))).2.queries.length = 1
      ∧ (handle_webhook (reorderedPayload (Json.str ("N1")))
          (Env.mk (some ("tok")) (Except.error ("network down")) (Except.error ("")) (Except.ok ()))).2.mutations = []) :=
  ⟨rfl, rfl, rfl, rfl, rfl,
    c7_first_call_failure (reorderedPayload (Json.str ("N1")))
      (Env.mk (some ("tok")) (Except.error ("network down")) (Except.error ("")) (Except.ok ()))
      ("tok") ("network down") (Json.str ("reordered")) (Json.str ("N1"))
      rfl rfl rfl rfl rfl⟩

/-- C8: the repository name and owner used for the mutation are the ones
read from the first query's response (never from the second), and when
either is absent the pipeline stops: no mutation is issued and the handler
still answers 200 (no crash). -/
theorem c8_repo_fields_first_query (p : Json) (env : Env) (t : String) (j : Json)
    (htok : env.token = some t) (hfr : env.firstResponse = Except.ok j) :
    ((repoName j = none ∨ ownerLogin j = none) →
        (handle_webhook p env).2.mutations = []
        ∧ (handle_webhook p env).1 = HandlerOutcome.ok ("Webhook received"))
    ∧ (∀ m ∈ (handle_webhook p env).2.mutations,
        repoName j = some m.repo ∧ ownerLogin j = some m.owner) := by
  constructor
  · intro hmiss
    simp only [handle_webhook, htok]
    repeat' split
    all_goals simp_all
  · intro m hm
    simp only [handle_webhook, htok] at hm
    repeat' split at hm
    all_goals simp_all

/-- Concrete first response for the C8 witness: Done status, content id and
repository name present, but no `owner.login`. -/
def c8Json : Json :=
  firstRespJson [selectNode ("Status") ("Done")]
    (Json.obj [(("id"), Json.str ("I_9")), (("repository"), Json.obj [(("name"), Json.str ("repo9"))])])

/-- Witness for C8 with the owner login missing from the first response. -/
theorem c8_witness :
    (Env.mk (some ("tok")) (Except.ok c8Json) (Except.ok (secondRespJson 7)) (Except.ok ())).token = some ("tok")
    ∧ (Env.mk (some ("tok")) (Except.ok c8Json) (Except.ok (secondRespJson 7)) (Except.ok ())).firstResponse
        = Except.ok c8Json
    ∧ (((repoName c8Json = none ∨ ownerLogin c8Json = none) →
          (handle_webhook (reorderedPayload (Json.str ("N1")))
            (Env.mk (some ("tok")) (Except.ok c8Json) (Except.ok (secondRespJson 7)) (Except.ok ()))).2.mutations = []
          ∧ (handle_webhook (reorderedPayload (Json.str ("N1")))
            (Env.mk (some ("tok")) (Except.ok c8Json) (Except.ok (secondRespJson 7)) (Except.ok ()))).1
            = HandlerOutcome.ok ("Webhook received"))
      ∧ (∀ m ∈ (handle_webhook (reorderedPayload (Json.str ("N1")))
            (Env.mk (some ("tok")) (Except.ok c8Json) (Except.ok (secondRespJson 7)) (Except.ok ()))).2.mutations,
          repoName c8Json = some m.repo ∧ ownerLogin c8Json = some m.owner)) :=
  ⟨rfl, rfl,
    c8_repo_fields_first_query (reorderedPayload (Json.str ("N1")))
      (Env.mk (some ("tok")) (Except.ok c8Json) (Except.ok (secondRespJson 7)) (Except.ok ()))
      ("tok") c8Json rfl rfl⟩

/-- Concrete first response for the C1 counterexample: Done status present
but no linked content at all, so the mutation cannot be issued. -/
def c1Json : Json := firstRespJson [selectNode ("Status") ("Done")] Json.null

/-- C1 counterexample: an invocation whose first response carries a
field-value node with field name "Status" and value "Done", yet no mutation
is executed (the content identifier is absent) — refuting the "if" direction
of the claimed equivalence. -/
theorem c1_counterexample :
    doneOf c1Json = true
    ∧ (handle_webhook (reorderedPayload (Json.str ("N1")))
        (Env.mk (some ("tok")) (Except.ok c1Json) (Except.ok (secondRespJson 7)) (Except.ok ()))).2.mutations
      = [] := by
  constructor
  · decide
  · decide

/-- C1 (amended): the close-issue mutation is executed only if the first
query succeeded and its response contains a field-value node with field name
"Status" and value "Done"; the converse does not hold in general, since the
content identifier, issue number, and repository fields must also resolve. -/
theorem c1_amended_only_if_done (p : Json) (env : Env)
    (h : (handle_webhook p env).2.mutations ≠ []) :
    ∃ j, env.firstResponse = Except.ok j ∧ doneOf j = true := by
  simp only [handle_webhook] at h
  repeat' split at h
  all_goals first
    | exact absurd rfl h
    | exact ⟨_, by assumption, by assumption⟩

/-- Concrete full Done pipeline used by the C1 witness. -/
def c1FullEnv : Env :=
  Env.mk (some ("tok"))
    (Except.ok (firstRespJson [selectNode ("Status") ("Done")] (issueContent ("I_1") ("repo1") ("owner1"))))
    (Except.ok (secondRespJson 13)) (Except.ok ())

/-- Witness for C1 (amended) at an invocation that actually mutates. -/
theorem c1_amended_witness :
    (handle_webhook (reorderedPayload (Json.str ("N1"))) c1FullEnv).2.mutations ≠ []
    ∧ ∃ j, c1FullEnv.firstResponse = Except.ok j ∧ doneOf j = true :=
  ⟨by decide, c1_amended_only_if_done (reorderedPayload (Json.str ("N1"))) c1FullEnv (by decide)⟩

/-- C3 counterexample: with `GITHUB_TOKEN` unset the handler does not return
the 200 acknowledgment — it panics — refuting "for every internal outcome
(including ... missing GITHUB_TOKEN) the handler returns HTTP 200". -/
theorem c3_counterexample :
    (handle_webhook Json.null (Env.mk none (Except.error ("")) (Except.error ("")) (Except.ok ()))).1
      ≠ HandlerOutcome.ok ("Webhook received") := by
  decide

/-- C3 (amended): the handler returns 200 with the fixed body "Webhook
received" for every payload and every internal outcome except a missing
`GITHUB_TOKEN` (the `expect` panics) and a failing mutation call (the
`unwrap` panics). -/
theorem c3_amended_ack (p : Json) (env : Env) (t : String)
    (htok : env.token = some t) (hmut : env.mutationResult = Except.ok ()) :
    (handle_webhook p env).1 = HandlerOutcome.ok ("Webhook received") :=
  handler_ack p env t htok hmut

/-- Witness for C3 (amended). -/
theorem c3_witness :
    (Env.mk (some ("tok")) (Except.error ("")) (Except.error ("")) (Except.ok ())).token = some ("tok")
    ∧ (Env.mk (some ("tok")) (Except.error ("")) (Except.error ("")) (Except.ok ())).mutationResult = Except.ok ()
    ∧ (handle_webhook Json.null (Env.mk (some ("tok")) (Except.error ("")) (Except.error ("")) (Except.ok ()))).1
        = HandlerOutcome.ok ("Webhook received") :=
  ⟨rfl, rfl, c3_amended_ack Json.null _ ("tok") rfl rfl⟩

/-- C5 counterexample: `action` = "reordered" with `projects_v2_item.node_id`
present but not a string (here the number 5): the pipeline does NOT
terminate before querying — a first remote query is sent — refuting "no
remote query is sent". -/
theorem c5_counterexample :
    (handle_webhook (reorderedPayload (Json.num 5))
        (Env.mk (some ("tok")) (Except.error ("net")) (Except.error ("")) (Except.ok ()))).2.queries
      ≠ [] := by
  decide

/-- C5 (amended): when `projects_v2_item.node_id` is present but not a
string, the identifier defaults to the empty string and the pipeline
proceeds — the first remote query, built from the empty identifier, is sent
— and the handler still responds success (as long as the mutation call, if
ever reached, does not fail). -/
theorem c5_amended_proceeds (p : Json) (env : Env) (t : String) (nid : Json)
    (htok : env.token = some t)
    (hact : Json.get p ("action") = some (Json.str ("reordered")))
    (hnid : Option.bind (Json.get p ("projects_v2_item")) (fun item => Json.get item ("node_id")) = some nid)
    (hnotstr : Json.asStr nid = none)
    (hmut : env.mutationResult = Except.ok ()) :
    (handle_webhook p env).2.queries.head? = some (prepare_graphql_query ([]))
    ∧ (handle_webhook p env).1 = HandlerOutcome.ok ("Webhook received") := by
  have h1 := handler_first_query p env t (Json.str ("reordered")) nid htok hact (by rfl) hnid
  rw [hnotstr] at h1
  refine ⟨?_, handler_ack p env t htok hmut⟩
  simpa [empty_string_data] using h1

/-- Witness for C5 (amended) with a numeric `node_id`. -/
theorem c5_witness :
    (Env.mk (some ("tok")) (Except.error ("net")) (Except.error ("")) (Except.ok ())).token = some ("tok")
    ∧ Json.get (reorderedPayload (Json.num 5)) ("action") = some (Json.str ("reordered"))
    ∧ Option.bind (Json.get (reorderedPayload (Json.num 5)) ("projects_v2_item"))
        (fun item => Json.get item ("node_id")) = some (Json.num 5)
    ∧ Json.asStr (Json.num 5) = none
    ∧ (Env.mk (some ("tok")) (Except.error ("net")) (Except.error ("")) (Except.ok ())).mutationResult = Except.ok ()
    ∧ ((handle_webhook (reorderedPayload (Json.num 5))
          (Env.mk (some ("tok")) (Except.error ("net")) (Except.error ("")) (Except.ok ()))).2.queries.head?
        = some (prepare_graphql_query ([]))
      ∧ (handle_webhook (reorderedPayload (Json.num 5))
          (Env.mk (some ("tok")) (Except.error ("net")) (Except.error ("")) (Except.ok ()))).1
        = HandlerOutcome.ok ("Webhook received")) :=
  ⟨rfl, rfl, rfl, rfl, rfl,
    c5_amended_proceeds (reorderedPayload (Json.num 5))
      (Env.mk (some ("tok")) (Except.error ("net")) (Except.error ("")) (Except.ok ()))
      ("tok") (Json.num 5) rfl rfl rfl rfl rfl⟩

/-- C9: the Done check reads only the `name` key of each field-value node,
so a node carrying "Done" in its `text` key (text variant) or `date` key
(date variant) under a "Status" field never matches — only the single-select
variant can — and a first response whose Status nodes are text/date variants
triggers no mutation. -/
theorem c9_only_single_select_matches (v : String) (rest : List Json) :
    scanDone (textNode ("Status") v :: rest) = scanDone rest
    ∧ scanDone (dateNode ("Status") v :: rest) = scanDone rest
    ∧ scanDone (selectNode ("Status") ("Done") :: rest) = true
    ∧ (handle_webhook (reorderedPayload (Json.str ("N1")))
        (Env.mk (some ("tok"))
          (Except.ok (firstRespJson [textNode ("Status") ("Done"), dateNode ("Status") ("Done")]
            (issueContent ("I_1") ("repo1") ("owner1"))))
          (Except.ok (secondRespJson 7)) (Except.ok ()))).2.mutations = [] := by
  refine ⟨?_, ?_, ?_, by decide⟩
  · simp [scanDone, textNode, Json.idx, Json.get, lookupField, Json.asStr]
  · simp [scanDone, dateNode, Json.idx, Json.get, lookupField, Json.asStr]
  · simp [scanDone, selectNode, Json.idx, Json.get, lookupField, Json.asStr]

end CardMover
